import Mathlib

/-!
Shallow embedding of the gang abstraction of `src/src/fairseq2/gang.py`
(process-group management for data- and tensor-parallel training), together
with theorems settling the specification claims about it.

Conventions of the embedding:
* Python exceptions become `Except` errors; each distinct `raise` site gets
  its own structured constructor carrying exactly the data interpolated
  into the source's f-string message.
* Python ints are Lean `Int`; sizes and ranks that the source guarantees
  non-negative are `Nat` where convenient.
* Object identity (`self`, `root_gang`) is represented structurally: a
  function that returns its argument object returns the same Lean value.
-/

/-- Exception class of a raised error, mirroring the Python exception type
used at each `raise` site in `gang.py`. The spec's `InvalidArgument`
condition corresponds to `ValueError`. -/
inductive PyExcClass where
  | valueError
  | runtimeError
deriving DecidableEq, Repr

/-- Errors raised by gang operations in `gang.py`. Each constructor is one
`raise` site and carries the values interpolated into its message. -/
inductive GangError where
  /-- `AbstractGang.create_gang` line 145: "The ranks in ranks must be all unique." -/
  | duplicateRanks
  /-- `AbstractGang.create_gang` lines 149-151: "The rank at index {idx} ...
  must be greater than or equal to 0 and less than the size of the gang
  ({size}), but is {rank} instead." -/
  | rankOutOfRange (idx : Nat) (rank : Int)
  /-- `FakeGang.broadcast_objects` line 224: "source_rank must be 0, but is {source_rank} instead." -/
  | invalidSourceRank (source_rank : Int)
  /-- `ProcessGroupGang._do_create_gang` lines 397-399: RuntimeError, create_gang
  can only be called on the gang of the default process group. -/
  | notDefaultProcessGroup
  /-- `setup_parallel_gangs` line 685: "tp_size must be greater than 0, but is {tp_size} instead." -/
  | invalidTpSize (tp_size : Int)
  /-- `setup_parallel_gangs` lines 688-690: raised when `root_gang.size % tp_size != 0`. -/
  | tpNotDivisible (tp_size : Int)
deriving DecidableEq, Repr

/-- The Python exception class raised for each `GangError`: every `raise` in
the gang layer is a `ValueError` except `ProcessGroupGang._do_create_gang`,
which raises `RuntimeError`. -/
def GangError.excClass : GangError → PyExcClass
  | .duplicateRanks => .valueError
  | .rankOutOfRange _ _ => .valueError
  | .invalidSourceRank _ => .valueError
  | .notDefaultProcessGroup => .runtimeError
  | .invalidTpSize _ => .valueError
  | .tpNotDivisible _ => .valueError

namespace AbstractGang

/-- The indexed scan of `AbstractGang.create_gang`'s for-loop (lines 147-151):
returns the first `(idx, rank)` with `rank < 0 or rank > size`, if any.
Note the source's comparison is `rank > self._size`, NOT `rank >= self._size`,
although its error message claims "less than the size of the gang". -/
def find_bad_rank (size : Int) (ranks : List Int) (idx : Nat) : Option (Nat × Int) :=
  match ranks with
  | [] => none
  | r :: rest => if r < 0 ∨ r > size then some (idx, r) else find_bad_rank size rest (idx + 1)

/-- The validation prefix of `AbstractGang.create_gang` (lines 143-151),
shared by every gang variant: first the uniqueness check
(`len(set(ranks)) != len(ranks)`), then the indexed range check. -/
def validate_ranks (size : Int) (ranks : List Int) : Except GangError Unit :=
  if ranks.Nodup then
    match find_bad_rank size ranks 0 with
    | some (idx, r) => .error (.rankOutOfRange idx r)
    | none => .ok ()
  else .error .duplicateRanks

end AbstractGang

/-- `FakeGang` (gang.py lines 182-230): the non-distributed gang for local
use. Its constructor fixes `rank = 0`, `size = 1`; only the device varies
(modelled as an opaque `Nat` identifier). -/
structure FakeGang where
  device : Nat
deriving DecidableEq, Repr

namespace FakeGang

/-- `FakeGang` rank: fixed to 0 by `__init__` (line 195). -/
def rank (_ : FakeGang) : Nat := 0

/-- `FakeGang` size: fixed to 1 by `__init__` (line 195). -/
def size (_ : FakeGang) : Nat := 1

/-- `FakeGang._do_create_gang` (lines 201-203): returns `self` unchanged. -/
def _do_create_gang (g : FakeGang) (_ranks : List Int) : FakeGang := g

/-- `AbstractGang.create_gang` as inherited by `FakeGang`: validate, then
dispatch to `_do_create_gang`. -/
def create_gang (g : FakeGang) (ranks : List Int) : Except GangError FakeGang :=
  match AbstractGang.validate_ranks ((size g : Int)) ranks with
  | .error e => .error e
  | .ok _ => .ok ( _do_create_gang g ranks)

/-- `FakeGang.broadcast_objects` (lines 222-224): raises `ValueError` when
`source_rank != 0`; otherwise the body does nothing, so the object list is
returned unchanged. -/
def broadcast_objects (objects : List Nat) (source_rank : Int) : Except GangError (List Nat) :=
  if source_rank ≠ 0 then .error (.invalidSourceRank source_rank) else .ok objects

end FakeGang

/-- Claim C1: the claim reads `create_gang` as failing for any rank >= size,
matching the source's own error message; but the source's comparison
(line 148) is `rank > self._size`, so a rank equal to the gang size passes
validation: on a gang of size 1 the ranks list `[1]` is accepted and
`create_gang` succeeds, returning the fake gang itself. -/
theorem create_gang_accepts_rank_eq_size :
    AbstractGang.validate_ranks 1 [1] = Except.ok () ∧
      FakeGang.create_gang ⟨0⟩ [1] = Except.ok ⟨0⟩ := by
  constructor <;> rfl

/-- Claim C10: on a local/fake gang, `create_gang` with any valid ranks list
(distinct entries, each in `[0, size)` with `size = 1`) returns the gang
object itself, regardless of the contents of the ranks list. -/
theorem fake_create_gang_returns_self (g : FakeGang) (ranks : List Int)
    (hnd : ranks.Nodup) (hr : ∀ r ∈ ranks, 0 ≤ r ∧ r < 1) :
    FakeGang.create_gang g ranks = Except.ok g := by
  have hbad : ∀ idx, AbstractGang.find_bad_rank ((FakeGang.size g : Int)) ranks idx = none := by
    induction ranks with
    | nil => intro idx; rfl
    | cons r rest ih =>
      intro idx
      have hr0 := hr r (by simp)
      have hrest : ∀ x ∈ rest, 0 ≤ x ∧ x < 1 := fun x hx => hr x (by simp [hx])
      have : ¬ (r < 0 ∨ r > ((FakeGang.size g : Int))) := by
        simp only [FakeGang.size]
        push_neg
        exact ⟨hr0.1, by omega⟩
      simp only [AbstractGang.find_bad_rank, if_neg this]
      exact ih (List.Nodup.of_cons hnd) hrest (idx + 1)
  unfold FakeGang.create_gang AbstractGang.validate_ranks
  rw [if_pos hnd, hbad 0]
  rfl

/-- Witness for C10 at a concrete gang and ranks list. -/
theorem fake_create_gang_returns_self_witness :
    FakeGang.create_gang ⟨5⟩ [0] = Except.ok ⟨5⟩ :=
  fake_create_gang_returns_self ⟨5⟩ [0] (by decide) (by decide)

/-- A call issued to the underlying communication backend
(`torch.distributed`), recorded rather than executed. -/
inductive BackendCall where
  /-- `dist.broadcast_object_list(objects, source_rank)` (gang.py line 452). -/
  | broadcastObjectList (source_rank : Int)
deriving DecidableEq, Repr

/-- `ProcessGroupGang` (gang.py lines 233-477): a gang wrapping a process
group. `size` is `dist.get_world_size(pg)`; `is_default_pg` records whether
`self._pg is dist.group.WORLD`, the identity tested by `_do_create_gang`. -/
structure ProcessGroupGang where
  size : Nat
  is_default_pg : Bool
deriving DecidableEq, Repr

namespace ProcessGroupGang

/-- `ProcessGroupGang._do_create_gang` (lines 394-413): raises
`RuntimeError` unless the wrapped process group is the default (WORLD)
group; otherwise wraps `dist.new_group(ranks)`. `dist.new_group` always
constructs a fresh group distinct from `dist.group.WORLD`, and for a member
process the wrapped gang's size is the number of ranks in the new group. -/
def _do_create_gang (g : ProcessGroupGang) (ranks : List Int) :
    Except GangError ProcessGroupGang :=
  if g.is_default_pg then .ok ⟨ranks.length, false⟩
  else .error .notDefaultProcessGroup

/-- `AbstractGang.create_gang` as inherited by `ProcessGroupGang`:
validate, then dispatch to `_do_create_gang`. -/
def create_gang (g : ProcessGroupGang) (ranks : List Int) :
    Except GangError ProcessGroupGang :=
  match AbstractGang.validate_ranks ((g.size : Int)) ranks with
  | .error e => .error e
  | .ok _ => _do_create_gang g ranks

/-- `ProcessGroupGang.broadcast_objects` (lines 448-452): performs no
validation of `source_rank`; after an optional monitored barrier it hands
the call directly to `dist.broadcast_object_list`. The `Except` result type
shows that no error is raised in this layer. -/
def broadcast_objects (_g : ProcessGroupGang) (source_rank : Int) :
    Except GangError BackendCall :=
  .ok (.broadcastObjectList source_rank)

end ProcessGroupGang

/-- Claim C9: a gang wrapping a non-default process group — in particular
any sub-gang produced by `create_gang` — rejects `create_gang` with a
`RuntimeError` even when the ranks argument passes validation; so derived
sub-gangs cannot be split further. -/
theorem subgang_create_gang_fails (g g' : ProcessGroupGang)
    (ranks ranks' : List Int)
    (hsub : ProcessGroupGang.create_gang g ranks = Except.ok g')
    (hvalid : AbstractGang.validate_ranks ((g'.size : Int)) ranks' = Except.ok ()) :
    ProcessGroupGang.create_gang g' ranks' = Except.error GangError.notDefaultProcessGroup := by
  have hflag : g'.is_default_pg = false := by
    unfold ProcessGroupGang.create_gang at hsub
    cases hv : AbstractGang.validate_ranks ((g.size : Int)) ranks with
    | error e => rw [hv] at hsub; exact absurd hsub (by simp)
    | ok u =>
      rw [hv] at hsub
      unfold ProcessGroupGang._do_create_gang at hsub
      by_cases hd : g.is_default_pg
      · rw [if_pos hd] at hsub
        cases hsub
        rfl
      · rw [if_neg hd] at hsub
        exact absurd hsub (by simp)
  unfold ProcessGroupGang.create_gang
  rw [hvalid]
  unfold ProcessGroupGang._do_create_gang
  rw [hflag]
  rfl

/-- Witness for C9: splitting a default-group gang of size 4 on ranks
`[0, 1]` yields a sub-gang on which a further valid `create_gang` fails. -/
theorem subgang_create_gang_fails_witness :
    ProcessGroupGang.create_gang ⟨2, false⟩ [0, 1] =
      Except.error GangError.notDefaultProcessGroup :=
  subgang_create_gang_fails ⟨4, true⟩ ⟨2, false⟩ [0, 1] [0, 1] rfl rfl

/-- Counterexample for C6: the claim asserts every gang raises an
`InvalidArgument` condition for a `source_rank` outside `[0, size)`, but a
distributed gang of size 2 given `source_rank = 5` raises nothing in this
layer: it issues the backend broadcast with the out-of-range rank. -/
theorem pg_broadcast_objects_no_validation :
    ProcessGroupGang.broadcast_objects ⟨2, true⟩ 5 =
      Except.ok (BackendCall.broadcastObjectList 5) := rfl

/-- Claim C6 (amended): the local/fake gang's `broadcast_objects` fails with
a `ValueError` (the spec's `InvalidArgument`) exactly for `source_rank ≠ 0`
— equivalently, outside `[0, 1)` = `[0, size)` — and with `source_rank = 0`
returns the object list unchanged; the distributed variant performs no
validation of its own and delegates the given `source_rank` to the backend. -/
theorem broadcast_objects_source_rank (objects : List Nat) (source_rank : Int)
    (hout : source_rank < 0 ∨ 1 ≤ source_rank) :
    FakeGang.broadcast_objects objects source_rank =
        Except.error (GangError.invalidSourceRank source_rank) ∧
      (GangError.invalidSourceRank source_rank).excClass = PyExcClass.valueError ∧
      FakeGang.broadcast_objects objects 0 = Except.ok objects ∧
      ∀ g : ProcessGroupGang,
        ProcessGroupGang.broadcast_objects g source_rank =
          Except.ok (BackendCall.broadcastObjectList source_rank) := by
  have hne : source_rank ≠ 0 := by omega
  refine ⟨?_, rfl, ?_, fun g => rfl⟩
  · unfold FakeGang.broadcast_objects
    rw [if_pos hne]
  · rfl

/-- Witness for C6 at a concrete object list and source rank. -/
theorem broadcast_objects_source_rank_witness :
    FakeGang.broadcast_objects [1, 2] 3 =
        Except.error (GangError.invalidSourceRank 3) ∧
      FakeGang.broadcast_objects [1, 2] 0 = Except.ok [1, 2] :=
  ⟨(broadcast_objects_source_rank [1, 2] 3 (by decide)).1,
    (broadcast_objects_source_rank [1, 2] 3 (by decide)).2.2.1⟩

/-- The tensor heap: a map from tensor identifiers to value sequences,
modelling the distinct storages of PyTorch tensors. -/
def TensorHeap : Type := Nat → List Int

/-- `FakeGang.all_gather` (gang.py lines 218-219):
`output_tensor.copy_(input_tensor)` writes the input tensor's values into
the output tensor's storage, leaving every other tensor untouched. -/
def FakeGang.all_gather (heap : TensorHeap) (output_tensor input_tensor : Nat) :
    TensorHeap :=
  fun t => if t = output_tensor then heap input_tensor else heap t

/-- An in-place write to one tensor's storage (e.g. a later `copy_` or
element assignment), used to express the absence of aliasing. -/
def write_tensor (heap : TensorHeap) (t : Nat) (v : List Int) : TensorHeap :=
  fun u => if u = t then v else heap u

/-- Claim C8: on a local/fake gang, `all_gather` writes into the output
tensor a value bit-identical to the input tensor, with copy semantics:
mutating the output tensor afterwards leaves the input tensor unchanged. -/
theorem fake_all_gather_copies (heap : TensorHeap) (out_t in_t : Nat)
    (hne : out_t ≠ in_t) :
    FakeGang.all_gather heap out_t in_t out_t = heap in_t ∧
      ∀ v, write_tensor (FakeGang.all_gather heap out_t in_t) out_t v in_t = heap in_t := by
  constructor
  · unfold FakeGang.all_gather
    rw [if_pos rfl]
  · intro v
    unfold write_tensor FakeGang.all_gather
    rw [if_neg (Ne.symm hne), if_neg (Ne.symm hne)]

/-- Witness for C8 on a concrete heap: tensor 0 receives tensor 1's values,
and overwriting tensor 0 afterwards leaves tensor 1 intact. -/
theorem fake_all_gather_copies_witness :
    FakeGang.all_gather (fun _ => [7, 8]) 0 1 0 = [7, 8] ∧
      write_tensor (FakeGang.all_gather (fun _ => [7, 8]) 0 1) 0 [9] 1 = [7, 8] :=
  ⟨(fake_all_gather_copies (fun _ => [7, 8]) 0 1 (by decide)).1,
    (fake_all_gather_copies (fun _ => [7, 8]) 0 1 (by decide)).2 [9]⟩

/-- One of the gangs placed into the dict returned by
`setup_parallel_gangs` (gang.py lines 706-734), identified by provenance:
the root gang object itself, a fresh `FakeGang(root_gang.device)`, or the
sub-gang obtained from `root_gang.create_gang` on the given mesh ranks. -/
inductive GangRef where
  | rootGang
  | freshFakeGang
  | subGang (ranks : List Nat)
deriving DecidableEq, Repr

/-- The size of a `GangRef` when the root gang has size `N`: the root keeps
`N`, a fresh fake gang has size 1, and a sub-gang's size is the number of
ranks passed to `create_gang`. -/
def GangRef.sizeIn (N : Nat) : GangRef → Nat
  | .rootGang => N
  | .freshFakeGang => 1
  | .subGang ranks => ranks.length

/-- Row `i` of `torch.arange(N).view(dp_size, tp_size)` as a rank list:
`mesh[i, :].tolist()` (gang.py line 727). -/
def mesh_row (tp_size i : Nat) : List Nat :=
  (List.range tp_size).map (fun c => i * tp_size + c)

/-- Column `i` of `torch.arange(N).view(dp_size, tp_size)` as a rank list:
`mesh[:, i].tolist()` (gang.py line 716). -/
def mesh_col (dp_size tp_size i : Nat) : List Nat :=
  (List.range dp_size).map (fun r => r * tp_size + i)

/-- All rank lists passed to `create_gang` by the tensor-parallel loop of
`setup_parallel_gangs` (lines 726-729): one mesh row per `i in range(dp_size)`. -/
def tp_group_lists (N tp_size : Nat) : List (List Nat) :=
  (List.range (N / tp_size)).map (mesh_row tp_size)

/-- All rank lists passed to `create_gang` by the data-parallel loop of
`setup_parallel_gangs` (lines 715-718): one mesh column per `i in range(tp_size)`. -/
def dp_group_lists (N tp_size : Nat) : List (List Nat) :=
  (List.range tp_size).map (mesh_col (N / tp_size) tp_size)

/-- `setup_parallel_gangs` (gang.py lines 658-734) for a root gang of size
`N` whose calling process has rank `rank` (the gang invariant gives
`rank < N`). Returns the pair (data-parallel gang, tensor-parallel gang)
standing for the returned dict with keys "dp" and "tp".

`rank_coords`, computed in the source as `torch.where(mesh == rank)` on the
row-major mesh of shape `(dp_size, tp_size)`, equals
`(rank / tp_size, rank % tp_size)` for `rank < N`. In the non-degenerate
branches the source creates every row (resp. column) sub-gang and keeps the
one whose loop index matches this process's mesh coordinate; the kept
sub-gang is the one returned here. -/
def setup_parallel_gangs (N rank : Nat) (tp_size : Int) :
    Except GangError (GangRef × GangRef) :=
  if tp_size ≤ 0 then .error (.invalidTpSize tp_size)
  else if (N : Int) % tp_size ≠ 0 then .error (.tpNotDivisible tp_size)
  else
    let tp := tp_size.toNat
    let dp := N / tp
    let row_idx := rank / tp
    let col_idx := rank % tp
    let dp_gang : GangRef :=
      if dp = 1 then .freshFakeGang
      else if dp = N then .rootGang
      else .subGang (mesh_col dp tp col_idx)
    let tp_gang : GangRef :=
      if tp = 1 then .freshFakeGang
      else if tp = N then .rootGang
      else .subGang (mesh_row tp row_idx)
    .ok (dp_gang, tp_gang)

/-- Claim C5: `setup_parallel_gangs` fails with a `ValueError` (the spec's
`InvalidArgument`) when `tp_size <= 0` or `tp_size` does not evenly divide
the root gang's size, before any sub-gang construction: the two checks are
the first statements of the function (lines 684-690). -/
theorem setup_parallel_gangs_invalid_tp (N rank : Nat) (tp_size : Int)
    (hbad : tp_size ≤ 0 ∨ (N : Int) % tp_size ≠ 0) :
    ∃ e, setup_parallel_gangs N rank tp_size = Except.error e ∧
      e.excClass = PyExcClass.valueError := by
  unfold setup_parallel_gangs
  by_cases h0 : tp_size ≤ 0
  · exact ⟨.invalidTpSize tp_size, by rw [if_pos h0], rfl⟩
  · have hmod : (N : Int) % tp_size ≠ 0 := hbad.resolve_left h0
    exact ⟨.tpNotDivisible tp_size, by rw [if_neg h0, if_pos hmod], rfl⟩

/-- Witness for C5: a root gang of size 8 with `tp_size = 3` fails
(3 does not divide 8). -/
theorem setup_parallel_gangs_invalid_tp_witness :
    ∃ e, setup_parallel_gangs 8 0 3 = Except.error e ∧
      e.excClass = PyExcClass.valueError :=
  setup_parallel_gangs_invalid_tp 8 0 3 (by decide)

deriving instance DecidableEq for Except

/-- Claim C2: for a root gang of size 8 and `tp_size = 2`, the ranks are
arranged row-major in a `(4, 2)` mesh; the tensor-parallel loop creates the
mesh rows `[0,1], [2,3], [4,5], [6,7]` and the data-parallel loop the mesh
columns `[0,2,4,6], [1,3,5,7]`; every rank gets the row and column sub-gangs
it belongs to, lies in its own row and column, and belongs to exactly one
group of each kind, so each kind partitions the 8 ranks without overlap. -/
theorem setup_parallel_gangs_mesh_8_2 :
    tp_group_lists 8 2 = [[0, 1], [2, 3], [4, 5], [6, 7]] ∧
      dp_group_lists 8 2 = [[0, 2, 4, 6], [1, 3, 5, 7]] ∧
      (∀ r : Fin 8,
        setup_parallel_gangs 8 (r : Nat) 2 =
          Except.ok (GangRef.subGang (mesh_col 4 2 ((r : Nat) % 2)),
            GangRef.subGang (mesh_row 2 ((r : Nat) / 2))) ∧
        (r : Nat) ∈ mesh_row 2 ((r : Nat) / 2) ∧
        (r : Nat) ∈ mesh_col 4 2 ((r : Nat) % 2)) ∧
      (∀ r : Fin 8,
        (tp_group_lists 8 2).countP (fun grp => decide ((r : Nat) ∈ grp)) = 1 ∧
        (dp_group_lists 8 2).countP (fun grp => decide ((r : Nat) ∈ grp)) = 1) := by
  decide

/-- Counterexample for C4: on a root gang of size 1 with `tp_size = 1 = N`,
the claim requires the tensor-parallel gang to be the root gang itself; but
the source tests `tp_size == 1` first, so both returned gangs are fresh fake
gangs and neither is the root. -/
theorem setup_parallel_gangs_size_one_not_root :
    setup_parallel_gangs 1 0 1 =
        Except.ok (GangRef.freshFakeGang, GangRef.freshFakeGang) ∧
      GangRef.freshFakeGang ≠ GangRef.rootGang := by
  decide

/-- Claim C4 (amended): for a root gang of size `N >= 1`, `tp_size = 1`
yields a fresh fake tensor-parallel gang of size 1, with the root gang
itself as the data-parallel gang when `N > 1` (a fresh fake gang when
`N = 1`); and for `N > 1`, `tp_size = N` yields the root gang itself as the
tensor-parallel gang and a fresh fake data-parallel gang of size 1. -/
theorem setup_parallel_gangs_degenerate (N rank : Nat) (hN : 1 ≤ N) :
    setup_parallel_gangs N rank 1 =
        Except.ok ((if N = 1 then GangRef.freshFakeGang else GangRef.rootGang),
          GangRef.freshFakeGang) ∧
      GangRef.sizeIn N GangRef.freshFakeGang = 1 ∧
      (1 < N → setup_parallel_gangs N rank (N : Int) =
        Except.ok (GangRef.freshFakeGang, GangRef.rootGang)) := by
  refine ⟨?_, rfl, ?_⟩
  · unfold setup_parallel_gangs
    rw [if_neg (by omega), if_neg (by simp [Int.emod_one])]
    by_cases hN1 : N = 1
    · subst hN1; rfl
    · simp only [Int.toNat_one, Nat.div_one, if_neg hN1, if_pos rfl, if_true]
  · intro hlt
    unfold setup_parallel_gangs
    rw [if_neg (by omega), if_neg (by simp [Int.emod_self])]
    have htp : (N : Int).toNat = N := Int.toNat_natCast N
    have hdiv : N / N = 1 := Nat.div_self (by omega)
    have hne1 : ¬ (N = 1) := by omega
    simp only [htp, hdiv, if_pos rfl, if_neg hne1, if_true]

/-- Witness for C4 at a concrete root gang of size 8. -/
theorem setup_parallel_gangs_degenerate_witness :
    setup_parallel_gangs 8 0 1 =
        Except.ok (GangRef.rootGang, GangRef.freshFakeGang) ∧
      setup_parallel_gangs 8 0 8 =
        Except.ok (GangRef.freshFakeGang, GangRef.rootGang) :=
  ⟨by
      have h := (setup_parallel_gangs_degenerate 8 0 (by decide)).1
      simpa using h,
    (setup_parallel_gangs_degenerate 8 0 (by decide)).2.2 (by decide)⟩

/-- Errors raised while reading environment variables in
`_get_int_from_env` (gang.py lines 607-630). -/
inductive EnvError where
  /-- The descriptive `RuntimeError`s of lines 620-628 (the spec's
  `InvalidEnvironment`): carries the variable name and the bad value
  interpolated into the message. -/
  | invalidEnvironment (var_name : String) (bad_value : String)
  /-- The crash on line 616: the `except ValueError` handler's f-string
  references the local `value`, which is unassigned because `int(s)` failed,
  so an `UnboundLocalError` escapes instead of any descriptive error. -/
  | unboundLocalValue
deriving DecidableEq, Repr

/-- The environment: a partial map from variable names to string values,
modelling `os.getenv`. -/
def Env : Type := String → Option String

/-- Python's `str.strip()` on a character list: drop leading and trailing
whitespace. -/
def py_strip (cs : List Char) : List Char :=
  ((cs.dropWhile Char.isWhitespace).reverse.dropWhile Char.isWhitespace).reverse

/-- An all-digit, non-empty character list read as a natural number. -/
def py_digits (cs : List Char) : Option Nat :=
  if cs ≠ [] ∧ cs.all Char.isDigit then
    some (cs.foldl (fun acc c => 10 * acc + (c.toNat - 48)) 0)
  else none

/-- Python's `int(s)` on a string: optional surrounding whitespace, an
optional sign, then decimal digits; anything else raises `ValueError`
(modelled as `none`). Digit-grouping underscores are not modelled; no
claim exercises them. -/
def py_int_of_string (s : String) : Option Int :=
  match py_strip s.toList with
  | '-' :: rest => (py_digits rest).map (fun n => -(n : Int))
  | '+' :: rest => (py_digits rest).map (fun n => (n : Int))
  | cs => (py_digits cs).map (fun n => (n : Int))

/-- `_get_int_from_env` (gang.py lines 607-630): missing variable yields
`None`; an unparsable value triggers the buggy `except` branch (whose
message formatting itself crashes); a parsed value is range-checked
(`>= 1`, or `>= 0` when `allow_zero`) with a descriptive error naming the
variable and the value. -/
def _get_int_from_env (env : Env) (var_name : String) (allow_zero : Bool := false) :
    Except EnvError (Option Int) :=
  match env var_name with
  | none => .ok none
  | some s =>
    match py_int_of_string s with
    | none => .error .unboundLocalValue
    | some value =>
      if ¬ allow_zero then
        if ¬ (value ≥ 1) then .error (.invalidEnvironment var_name (toString value))
        else .ok (some value)
      else
        if ¬ (value ≥ 0) then .error (.invalidEnvironment var_name (toString value))
        else .ok (some value)

/-- `get_world_size` (gang.py lines 579-583): `WORLD_SIZE`, defaulting to 1. -/
def get_world_size (env : Env) : Except EnvError Int :=
  match _get_int_from_env env "WORLD_SIZE" with
  | .error e => .error e
  | .ok none => .ok 1
  | .ok (some value) => .ok value

/-- `get_rank` (gang.py lines 586-590): `RANK` with `allow_zero`,
defaulting to 0. -/
def get_rank (env : Env) : Except EnvError Int :=
  match _get_int_from_env env "RANK" true with
  | .error e => .error e
  | .ok none => .ok 0
  | .ok (some value) => .ok value

/-- `get_local_world_size` (gang.py lines 593-597): `LOCAL_WORLD_SIZE`,
defaulting to 1. -/
def get_local_world_size (env : Env) : Except EnvError Int :=
  match _get_int_from_env env "LOCAL_WORLD_SIZE" with
  | .error e => .error e
  | .ok none => .ok 1
  | .ok (some value) => .ok value

/-- `get_local_rank` (gang.py lines 600-604): `LOCAL_RANK` with
`allow_zero`, defaulting to 0. -/
def get_local_rank (env : Env) : Except EnvError Int :=
  match _get_int_from_env env "LOCAL_RANK" true with
  | .error e => .error e
  | .ok none => .ok 0
  | .ok (some value) => .ok value

/-- An environment defining a single variable. -/
def env_single (name value : String) : Env :=
  fun v => if v = name then some value else none

/-- Claim C3: the scenario `RANK="-1"` does fail naming `RANK` and `-1`,
but the claim's universal part is false for unparsable values: with
`RANK="abc"`, the `except ValueError` handler's own f-string references the
unassigned local `value`, so the read crashes with an `UnboundLocalError`
that names neither the variable nor the bad value, instead of raising the
descriptive condition the claim requires. -/
theorem get_rank_malformed_value_crashes :
    get_rank (env_single "RANK" "abc") = Except.error EnvError.unboundLocalValue ∧
      get_rank (env_single "RANK" "-1") =
        Except.error (EnvError.invalidEnvironment "RANK" "-1") ∧
      get_world_size (env_single "WORLD_SIZE" "abc") =
        Except.error EnvError.unboundLocalValue := by
  refine ⟨?_, ?_, ?_⟩ <;> rfl

/-- The gang returned by `setup_default_gang`: either a `FakeGang` (whose
constructor fixes `rank = 0`, `size = 1` and performs no backend work), or
the result of `ProcessGroupGang.init_default_process_group`, the full
distributed bootstrap that initializes the default backend process group. -/
inductive DefaultGang where
  | fakeGang (rank : Nat) (size : Nat)
  | processGroupBootstrap
deriving DecidableEq, Repr

/-- `setup_default_gang` (gang.py lines 633-655): when `get_world_size()`
(the `WORLD_SIZE` variable, defaulting to 1) equals 1, return
`FakeGang(device)` — rank 0, size 1, no backend initialization; otherwise
run `ProcessGroupGang.init_default_process_group`. -/
def setup_default_gang (env : Env) : Except EnvError DefaultGang :=
  match get_world_size env with
  | .error e => .error e
  | .ok ws => if ws = 1 then .ok (.fakeGang 0 1) else .ok .processGroupBootstrap

/-- Claim C7: with `WORLD_SIZE` unset, or set to a value parsing to 1,
`setup_default_gang` returns a local fake gang with rank 0 and size 1 and
issues no backend initialization; with `WORLD_SIZE` parsing to `n >= 2` it
performs the full distributed bootstrap. -/
theorem setup_default_gang_world_size (env : Env) :
    (env "WORLD_SIZE" = none →
      setup_default_gang env = Except.ok (DefaultGang.fakeGang 0 1)) ∧
      (∀ s, env "WORLD_SIZE" = some s → py_int_of_string s = some 1 →
        setup_default_gang env = Except.ok (DefaultGang.fakeGang 0 1)) ∧
      (∀ s n, env "WORLD_SIZE" = some s → py_int_of_string s = some n → 2 ≤ n →
        setup_default_gang env = Except.ok DefaultGang.processGroupBootstrap) := by
  refine ⟨?_, ?_, ?_⟩
  · intro hnone
    unfold setup_default_gang get_world_size _get_int_from_env
    rw [hnone]
    rfl
  · intro s hs hparse
    unfold setup_default_gang get_world_size _get_int_from_env
    simp only [hs, hparse]
    rfl
  · intro s n hs hparse hn
    unfold setup_default_gang get_world_size _get_int_from_env
    simp only [hs, hparse]
    have h1 : n ≥ 1 := by omega
    have hne : ¬ (n = 1) := by omega
    simp [h1, hne]

/-- Witness for C7: an empty environment yields the fake gang; with
`WORLD_SIZE=8` the full bootstrap runs. -/
theorem setup_default_gang_world_size_witness :
    setup_default_gang (fun _ => none) = Except.ok (DefaultGang.fakeGang 0 1) ∧
      setup_default_gang (env_single "WORLD_SIZE" "8") =
        Except.ok DefaultGang.processGroupBootstrap :=
  ⟨(setup_default_gang_world_size (fun _ => none)).1 rfl,
    (setup_default_gang_world_size (env_single "WORLD_SIZE" "8")).2.2 "8" 8 rfl rfl
      (by decide)⟩
